import Mathlib

/-
Verification development for the freelancing-marketplace server
(Tech_Student_Freelancing).  The definitions below are a shallow embedding
of the server's document model and of the controller operations that the
checked properties concern.  Conventions:

* Document-store ids (Mongo ObjectIds) are modelled as `Nat`; fresh ids are
  drawn from a counter `nextId` carried in the state.
* A collection is a list of records; `findById` is `List.find?` on the id
  field; `findByIdAndUpdate` maps the update over the record with that id
  (ids are unique in a Mongo collection, so this equals an update-one).
* Controller operations are total Lean functions from a state and the
  request parameters to an HTTP-level outcome (status code + success flag)
  and the resulting state.  A thrown exception inside a handler's `try`
  block is modelled by routing to the handler's `catch` branch, which
  forwards to the centralized error handler (status 500 for a generic
  error), exactly as in the source.
* Mongoose schema validation is modelled where the checked property cites
  the schema: the Notification `type` enum
  (src/server/models/chat.model.js, notification schema, lines 94-108),
  and the chat `reactions` subdocument paths (same file, lines 61-71).
  Mongoose runs schemas in strict mode by default, so an object key that
  is not a schema path is dropped when the document is cast/saved, and
  reading such a path on a stored document yields `undefined`.
  Operations whose cited code is purely controller-level are embedded at
  the controller level (the record fields are the fields the controller
  reads and writes).
* Request-body validation middleware (`express-validator`) is outside the
  embedded operations; the inputs of each operation are the already
  extracted parameters.
-/

namespace TSF

/-- HTTP-level outcome of a controller operation: the response status code
and whether the JSON body reports success. -/
structure Resp where
  status : Nat
  success : Bool
deriving Repr, DecidableEq

/-- User document, restricted to the fields the embedded operations touch:
the id, the display name, and the list of notification ids held in the
user's `notifications` array. -/
structure UserRec where
  id : Nat
  name : String
  notifications : List Nat := []
deriving Repr, DecidableEq

/-- Team member subdocument (team schema `members` entries): the user id and
the role string. -/
structure TMember where
  user : Nat
  role : String := "member"
deriving Repr, DecidableEq

/-- Team document: id, name and members, as read by the chat controller. -/
structure TeamRec where
  id : Nat
  name : String
  members : List TMember := []
deriving Repr, DecidableEq

/-- Entry of a group message's `readBy` array: the user and the read
timestamp. -/
structure ReadEntry where
  user : Nat
  readAt : Nat
deriving Repr, DecidableEq

/-- Reaction subdocument as persisted by the chat schema
(src/server/models/chat.model.js, lines 61-71).  The schema paths of an
entry are `user`, `reaction` (commented in the source as the emoji code)
and `createdAt`; `reaction` is an optional string. -/
structure StoredReaction where
  user : Nat
  reaction : Option String := none
  createdAt : Nat
deriving Repr, DecidableEq

/-- Chat message document at the level the chat controller uses it. -/
structure ChatRec where
  id : Nat
  sender : Nat
  recipient : Option Nat := none
  team : Option Nat := none
  project : Option Nat := none
  content : String
  ctype : String := "text"
  isTeamMessage : Bool := false
  isProjectMessage : Bool := false
  isRead : Bool := false
  readBy : List ReadEntry := []
  reactions : List StoredReaction := []
  replyTo : Option Nat := none
deriving Repr, DecidableEq

/-- Notification document, with the fields the embedded operations set.
`ntype` embeds the schema path `type` (renamed because `type` is reserved
in Lean). -/
structure NotifRec where
  id : Nat
  recipient : Nat
  ntype : String
  title : String
  content : String
  link : String := ""
  message : Option Nat := none
  team : Option Nat := none
  project : Option Nat := none
  task : Option Nat := none
  createdBy : Nat
deriving Repr, DecidableEq

/-- Proposal subdocument of a project (project schema `proposals` entries),
restricted to the fields `updateProposalStatus` touches. -/
structure ProposalRec where
  id : Nat
  freelancer : Nat
  pstatus : String := "pending"
deriving Repr, DecidableEq

/-- Project document, restricted to the fields the embedded operations
touch. -/
structure ProjectRec where
  id : Nat
  title : String
  client : Nat
  status : String := "open"
  assignedFreelancers : List Nat := []
  proposals : List ProposalRec := []
  tasks : List Nat := []
  startDate : Option Nat := none
deriving Repr, DecidableEq

/-- Dependency subdocument of the task schema
(src/server/models/task.model.js, lines 97-107): a stored dependency is a
subdocument with paths `task` (a task reference) and `type` (a
dependency-kind string with default `finish_to_start`; the field is named
`dtype` here because `type` is reserved in Lean). -/
structure DepSub where
  task : Option Nat := none
  dtype : String := "finish_to_start"
deriving Repr, DecidableEq

/-- Task document as the task schema stores it
(src/server/models/task.model.js): the creator reference path is
`createdBy`; the schema runs in strict mode, so the task controller's
writes to the non-schema key `creator` are dropped and reads of
`task.creator` yield undefined (see `creatorPathOf` below); `dependencies`
is an array of `DepSub` subdocuments, not of task ids. -/
structure TaskRec where
  id : Nat
  title : String
  project : Nat
  createdBy : Nat
  assignedTo : List Nat := []
  status : String := "not_started"
  progress : Nat := 0
  dependencies : List DepSub := []
  subtasks : List Nat := []
  parentTask : Option Nat := none
deriving Repr, DecidableEq

/-- The document store: one list per collection, plus the fresh-id
counter. -/
structure St where
  users : List UserRec := []
  teams : List TeamRec := []
  projects : List ProjectRec := []
  tasks : List TaskRec := []
  chats : List ChatRec := []
  notifications : List NotifRec := []
  nextId : Nat := 0
deriving Repr, DecidableEq

/-- Model.findById on the User collection. -/
def findUser (st : St) (i : Nat) : Option UserRec :=
  st.users.find? (fun u => u.id == i)

/-- Model.findById on the Team collection. -/
def findTeam (st : St) (i : Nat) : Option TeamRec :=
  st.teams.find? (fun t => t.id == i)

/-- Model.findById on the Project collection. -/
def findProject (st : St) (i : Nat) : Option ProjectRec :=
  st.projects.find? (fun p => p.id == i)

/-- Model.findById on the Task collection. -/
def findTask (st : St) (i : Nat) : Option TaskRec :=
  st.tasks.find? (fun t => t.id == i)

/-- Model.findById on the Chat collection. -/
def findChat (st : St) (i : Nat) : Option ChatRec :=
  st.chats.find? (fun c => c.id == i)

/-- Reading `task.creator` (e.g. src/server/controllers/task.controller.js,
line 1440): `creator` is not a path of the task schema, whose creator
reference is `createdBy`, so the read yields `undefined`, modelled as
`none`, for every stored task document. -/
def creatorPathOf (_t : TaskRec) : Option Nat :=
  none

/-- `User.findByIdAndUpdate(uid, \x7b $push: \x7b notifications: nid \x7d \x7d)`:
append a notification id to the addressed user's notification list (no-op
when no user has that id, as in the source). -/
def pushUserNotif (st : St) (uid nid : Nat) : St :=
  { st with
    users := st.users.map fun u =>
      if u.id == uid then { u with notifications := u.notifications ++ [nid] } else u }

/-- The `type` enum of the notification schema
(src/server/models/chat.model.js, lines 94-108). -/
def notificationTypes : List String :=
  ["project", "proposal", "team", "task", "message", "payment", "milestone", "system", "badge"]

/-- Schema validation of a Notification `type` value: valid iff it is one of
the enumerated values (the path is `required`, and every embedded operation
supplies a literal, so presence always holds; the enum is the live
check). -/
def validNotifType (t : String) : Bool :=
  notificationTypes.contains t

/-- `notification.save()`: Mongoose validates the document against the
schema before the insert.  A `type` outside the enum fails validation and
the save throws (`Except.error`); otherwise the document is appended to the
collection. -/
def saveNotificationE (st : St) (n : NotifRec) : Except Unit St :=
  if validNotifType n.ntype then
    Except.ok { st with notifications := st.notifications ++ [n] }
  else
    Except.error ()

/-- Casting of the object the reaction handler pushes
(src/server/models/chat.model.js, lines 1182-1186): the controller builds
an object with keys `user`, `emoji`, `createdAt`.  The schema paths of a
reactions entry are `user`, `reaction`, `createdAt` (lines 61-71), and the
schema runs in strict mode, so the unknown key `emoji` is dropped and the
schema path `reaction` — which the controller never sets — is left unset. -/
def castPushedReaction (uid : Nat) (_emojiArg : String) (now : Nat) : StoredReaction :=
  { user := uid, reaction := none, createdAt := now }

/-- Reading `r.emoji` on a stored reactions entry (lines 1164-1165 of the
controller): `emoji` is not a schema path of the subdocument, so the read
yields `undefined`, modelled as `none`. -/
def emojiPathOf (_r : StoredReaction) : Option String :=
  none

/-- The reaction-toggling core of `reactToMessage`
(src/server/models/chat.model.js, lines 1163-1189), as a transformation of
the message's stored reactions array.  First the handler looks for an entry
of this user whose `emoji` equals the request's emoji and removes it if
found; otherwise it removes any existing entry of this user and pushes the
new reaction object. -/
def applyReact (uid : Nat) (emojiArg : String) (now : Nat)
    (rs : List StoredReaction) : List StoredReaction :=
  match rs.findIdx? (fun r => r.user == uid && emojiPathOf r == some emojiArg) with
  | some i => rs.eraseIdx i
  | none =>
    let rs1 :=
      match rs.findIdx? (fun r => r.user == uid) with
      | some j => rs.eraseIdx j
      | none => rs
    rs1 ++ [castPushedReaction uid emojiArg now]

/-- The notification `type` string that `updateProgress` passes when a task
is marked completed (src/server/controllers/task.controller.js,
lines 415-426). -/
def updateProgressNotifType : String :=
  "task_completed"

/-- The notification `type` string that `inviteToTeam` passes
(team controller, src/unnamed/part_005, lines 727-749). -/
def inviteToTeamNotifType : String :=
  "invitation"

/-- The status values `updateProgress` accepts for the `status` request
field (src/server/controllers/task.controller.js, line 399). -/
def progressStatusValues : List String :=
  ["todo", "in_progress", "review", "completed"]

/-- `task.save()` in the task controller: write the (in-memory mutated)
task document back into the collection. -/
def saveTask (st : St) (t : TaskRec) : St :=
  { st with tasks := st.tasks.map fun x => if x.id == t.id then t else x }

/-- `updateProgress` (src/server/controllers/task.controller.js,
lines 377-443).  Steps, in source order: find the task (404 if absent),
authorize by `task.assignedTo` membership (403), apply the progress bound
check, apply the status change, and — when the task transitions to
`completed` — create a `Notification` with type `task_completed` for the
project's client before `task.save()`.  A failed notification save throws a
Mongoose ValidationError, so control reaches the handler's catch and the
task write never happens; `next(error)` hands the ValidationError to the
centralized handler, which maps it to status 400
(src/server/utils/errorHandler.js, lines 48-52).  The point award
(`$inc: points`) touches a user field outside this model and is not
embedded. -/
def updateProgress (st : St) (uid : Nat) (uname : String) (taskId : Nat)
    (progress : Option Nat) (statusArg : Option String) : Resp × St :=
  match findTask st taskId with
  | none => ({ status := 404, success := false }, st)
  | some task =>
    if ! task.assignedTo.contains uid then
      ({ status := 403, success := false }, st)
    else
      let t1 :=
        match progress with
        | some p => if p ≤ 100 then { task with progress := p } else task
        | none => task
      match statusArg with
      | some s =>
        if progressStatusValues.contains s then
          let oldStatus := t1.status
          let t2 := { t1 with status := s }
          if s == "completed" && oldStatus != "completed" then
            match findProject st t2.project with
            | none => ({ status := 500, success := false }, st)
            | some proj =>
              let n : NotifRec :=
                { id := st.nextId
                  recipient := proj.client
                  ntype := updateProgressNotifType
                  title := "Task Completed"
                  content := "Task \"" ++ t2.title ++ "\" has been completed by " ++ uname
                  link := "/projects/" ++ toString proj.id ++ "/tasks/" ++ toString t2.id
                  project := some proj.id
                  task := some t2.id
                  createdBy := uid }
              match saveNotificationE { st with nextId := st.nextId + 1 } n with
              | Except.error _ => ({ status := 400, success := false }, st)
              | Except.ok st1 =>
                let st2 := pushUserNotif st1 proj.client n.id
                ({ status := 200, success := true }, saveTask st2 t2)
          else
            ({ status := 200, success := true }, saveTask st t2)
        else
          ({ status := 200, success := true }, saveTask st t1)
      | none => ({ status := 200, success := true }, saveTask st t1)

/-- `message.remove()` in `deleteMessage`: remove the document that
`findById` located (the first — with unique ids the only — chat whose id
matches). -/
def removeChatDoc : List ChatRec → Nat → List ChatRec
  | [], _ => []
  | c :: cs, i => if c.id == i then cs else c :: removeChatDoc cs i

/-- `deleteMessage` (src/server/models/chat.model.js, lines 1212-1236):
404 when the message does not exist, 403 — with no mutation — when the
requester is not the sender, otherwise a hard remove of the document and a
success response. -/
def deleteMessage (st : St) (uid msgId : Nat) : Resp × St :=
  match findChat st msgId with
  | none => ({ status := 404, success := false }, st)
  | some m =>
    if m.sender != uid then
      ({ status := 403, success := false }, st)
    else
      ({ status := 200, success := true }, { st with chats := removeChatDoc st.chats msgId })

/-- Per-document effect of the read-marking `updateMany` in
`getPrivateMessages` (src/server/models/chat.model.js, lines 529-533):
filter is sender = the conversation partner, recipient = the requesting
user, `isRead: false`; the update sets `isRead: true`. -/
def markReadOnFetch (viewer other : Nat) (m : ChatRec) : ChatRec :=
  if m.sender == other && m.recipient == some viewer && m.isRead == false then
    { m with isRead := true }
  else
    m

/-- Per-document effect of the private branch of `markMessagesAsRead`
(src/server/models/chat.model.js, lines 1251-1260).  `privateCond`
abstracts the filter clause `isPrivateMessage: true`: the chat schema does
not define that path, so whether it matches a stored document depends on
the store's strict-query handling; the marking behaviour proved below holds
for either outcome. -/
def markReadBulkPrivate (privateCond : Bool) (viewer : Nat) (ids : List Nat)
    (m : ChatRec) : ChatRec :=
  if ids.contains m.id && privateCond && m.recipient == some viewer && m.isRead == false then
    { m with isRead := true }
  else
    m

/-- Endpoint-level outcome of `markMessagesAsRead`
(src/server/models/chat.model.js, lines 1243-1281): 400 when the id list is
missing or empty, otherwise the updates run and the response is 200
success. -/
def markMessagesAsReadResp (ids : List Nat) : Resp :=
  if ids.isEmpty then { status := 400, success := false }
  else { status := 200, success := true }

/-- One invocation, restricted to one message, of any of the three group
mark-read sites (`getTeamMessages` lines 593-601, `getProjectMessages`
lines 674-682, and the group branch of `markMessagesAsRead`
lines 1262-1271).  All three share the guard `sender: \x7b $ne: user \x7d`
and `readBy.user: \x7b $ne: user \x7d` and the update
`$push: readBy (user, now)`; `gate` abstracts the remaining filter clauses
of the particular site (team/project match, id-list membership). -/
def markReadGroup (gate : Bool) (uid now : Nat) (m : ChatRec) : ChatRec :=
  if gate && m.sender != uid && !(m.readBy.any (fun e => e.user == uid)) then
    { m with readBy := m.readBy ++ [{ user := uid, readAt := now }] }
  else
    m

/-- A sequence of mark-read invocations (gate, user, timestamp) applied to
one message. -/
def applyMarks : List (Bool × Nat × Nat) → ChatRec → ChatRec
  | [], m => m
  | (g, u, t) :: ops, m => applyMarks ops (markReadGroup g u t m)

/-- Number of `readBy` entries of a message that belong to a given user. -/
def countReadBy (m : ChatRec) (u : Nat) : Nat :=
  (m.readBy.filter (fun e => e.user == u)).length

/-- `sendPrivateMessage` (src/server/models/chat.model.js, lines 200-269):
404 when the recipient does not exist; otherwise the message document is
persisted, then a `message`-type notification for the recipient is built
and saved and its id pushed onto the recipient's notification list, and the
handler responds 201.  `notifWriteOk` injects the outcome of the
notification write: when the write fails, the save throws after the message
is already persisted, the handler's catch logs the error and calls
`next(error)`, and the centralized error handler responds with status 500
— the message document is not rolled back.  (The controller also sets
`isPrivateMessage: true`, a key the chat schema does not define, and the
optional file fields; neither is read by the properties below.) -/
def sendPrivateMessage (st : St) (senderId : Nat) (senderName : String)
    (recipient : Nat) (content : String) (mtype : Option String)
    (notifWriteOk : Bool) : Resp × St :=
  match findUser st recipient with
  | none => ({ status := 404, success := false }, st)
  | some _ =>
    let msgId := st.nextId
    let msg : ChatRec :=
      { id := msgId, sender := senderId, recipient := some recipient,
        content := content, ctype := mtype.getD "text" }
    let st1 := { st with chats := st.chats ++ [msg], nextId := msgId + 1 }
    let n : NotifRec :=
      { id := st1.nextId
        recipient := recipient
        ntype := "message"
        title := "New Private Message"
        content := "You have received a new message from " ++ senderName
        link := "/messages/" ++ toString senderId
        message := some msgId
        createdBy := senderId }
    if notifWriteOk then
      match saveNotificationE { st1 with nextId := st1.nextId + 1 } n with
      | Except.error _ => ({ status := 500, success := false }, st1)
      | Except.ok st2 => ({ status := 201, success := true }, pushUserNotif st2 recipient n.id)
    else
      ({ status := 500, success := false }, st1)

/-- The notification object `sendTeamMessage` builds for one team member
(src/server/models/chat.model.js, lines 334-343). -/
def mkTeamMsgNotif (nid member senderId : Nat) (senderName teamName : String)
    (teamId msgId : Nat) : NotifRec :=
  { id := nid
    recipient := member
    ntype := "message"
    title := "New Team Message"
    content := senderName ++ " sent a message to the team: " ++ teamName
    link := "/teams/" ++ toString teamId ++ "/chat"
    message := some msgId
    team := some teamId
    createdBy := senderId }

/-- The member loop of `sendTeamMessage` (src/server/models/chat.model.js,
lines 330-351): for each team member other than the sender, build the
notification, save it, and push its id onto that member's notification
list.  A failed save would throw out of the loop with the state reached so
far (`Except.error`); the saves here carry type `message`, which the schema
accepts, so the loop in fact always completes. -/
def teamNotifLoop (senderId : Nat) (senderName teamName : String)
    (teamId msgId : Nat) : List TMember → St → Except St St
  | [], st => Except.ok st
  | mem :: ms, st =>
    if mem.user == senderId then
      teamNotifLoop senderId senderName teamName teamId msgId ms st
    else
      match saveNotificationE { st with nextId := st.nextId + 1 }
          (mkTeamMsgNotif st.nextId mem.user senderId senderName teamName teamId msgId) with
      | Except.error _ => Except.error st
      | Except.ok st1 =>
        teamNotifLoop senderId senderName teamName teamId msgId ms
          (pushUserNotif st1 mem.user st.nextId)

/-- `sendTeamMessage` (src/server/models/chat.model.js, lines 276-361):
404 when the team does not exist, 403 when the sender is not a member;
otherwise the message document is persisted and the member loop creates the
notifications, and the handler responds 201. -/
def sendTeamMessage (st : St) (senderId : Nat) (senderName : String) (teamId : Nat)
    (content : String) (mtype : Option String) : Resp × St :=
  match findTeam st teamId with
  | none => ({ status := 404, success := false }, st)
  | some team =>
    if ! team.members.any (fun mem => mem.user == senderId) then
      ({ status := 403, success := false }, st)
    else
      let msgId := st.nextId
      let msg : ChatRec :=
        { id := msgId, sender := senderId, team := some teamId,
          content := content, ctype := mtype.getD "text", isTeamMessage := true }
      let st1 := { st with chats := st.chats ++ [msg], nextId := msgId + 1 }
      match teamNotifLoop senderId senderName team.name teamId msgId team.members st1 with
      | Except.error stp => ({ status := 500, success := false }, stp)
      | Except.ok st2 => ({ status := 201, success := true }, st2)

/-- Concrete store used by the C1 witness: a team (id 4) with three
members, user 1 being the sender. -/
def c1St : St :=
  { users := [{ id := 1, name := "Ann" }, { id := 2, name := "Bob" },
              { id := 3, name := "Cid" }]
    teams := [{ id := 4, name := "Alpha",
                members := [{ user := 1, role := "leader" }, { user := 2 }, { user := 3 }] }]
    nextId := 20 }

/-- Concrete store used by the C3 counterexample and witnesses: two users
and otherwise empty collections. -/
def c3St : St :=
  { users := [{ id := 1, name := "Ann" }, { id := 2, name := "Bob" }]
    nextId := 10 }

/-- Concrete direct message used by the C7 witness: sent by user 2 to
user 1, not yet read. -/
def c7Msg : ChatRec :=
  { id := 5, sender := 2, recipient := some 1, content := "hello" }

/-- Concrete store used by the C9 witness: one direct message (id 5) from
user 2 to user 1. -/
def c9St : St :=
  { users := [{ id := 1, name := "Ann" }, { id := 2, name := "Bob" }]
    chats := [c7Msg]
    nextId := 6 }

/-- Substring containment, used to state that a notification's content
contains a given word. -/
def strHasSub (pat s : String) : Prop :=
  ∃ l r, s.data = l ++ pat.data ++ r

/-- The in-memory index assignment
`project.proposals[proposalIndex].status = status` of
`updateProposalStatus`: the first proposal with the given id gets the new
status. -/
def setProposalStatus : List ProposalRec → Nat → String → List ProposalRec
  | [], _, _ => []
  | p :: ps, pid, s =>
    if p.id == pid then { p with pstatus := s } :: ps
    else p :: setProposalStatus ps pid s

/-- `project.save()`: write the (in-memory mutated) project document back
into the collection. -/
def saveProject (st : St) (p : ProjectRec) : St :=
  { st with projects := st.projects.map fun x => if x.id == p.id then p else x }

/-- `updateProposalStatus` (project controller, src/unnamed/part_004,
lines 428-523): 404 when the project or the proposal does not exist, 403
when the requester is not the project's client; otherwise the proposal
status is set and, on `accepted`, the project moves to `in_progress` with
`startDate := now`, the proposing freelancer is appended to
`assignedFreelancers`, and an accepted-`proposal` notification is created
for the freelancer before `project.save()`.  On `rejected` only the
rejection notification is added.  (The `$push` of the project id onto the
freelancer's `projects` array touches a user field outside this model and
is not embedded.) -/
def updateProposalStatus (st : St) (uid projectId proposalId : Nat)
    (statusArg : String) (now : Nat) : Resp × St :=
  match findProject st projectId with
  | none => ({ status := 404, success := false }, st)
  | some project =>
    if project.client != uid then
      ({ status := 403, success := false }, st)
    else
      match project.proposals.find? (fun p => p.id == proposalId) with
      | none => ({ status := 404, success := false }, st)
      | some prop =>
        let project1 :=
          { project with proposals := setProposalStatus project.proposals proposalId statusArg }
        if statusArg == "accepted" then
          let project2 :=
            { project1 with
              status := "in_progress"
              startDate := some now
              assignedFreelancers := project1.assignedFreelancers ++ [prop.freelancer] }
          let n : NotifRec :=
            { id := st.nextId
              recipient := prop.freelancer
              ntype := "proposal"
              title := "Proposal Accepted"
              content := "Your proposal for the project \"" ++ project.title ++
                "\" has been accepted!"
              link := "/projects/" ++ toString project.id
              project := some project.id
              createdBy := uid }
          match saveNotificationE { st with nextId := st.nextId + 1 } n with
          | Except.error _ => ({ status := 500, success := false }, st)
          | Except.ok st1 =>
            ({ status := 200, success := true },
             saveProject (pushUserNotif st1 prop.freelancer n.id) project2)
        else if statusArg == "rejected" then
          let n : NotifRec :=
            { id := st.nextId
              recipient := prop.freelancer
              ntype := "proposal"
              title := "Proposal Rejected"
              content := "Your proposal for the project \"" ++ project.title ++
                "\" has been rejected."
              link := "/projects/" ++ toString project.id
              project := some project.id
              createdBy := uid }
          match saveNotificationE { st with nextId := st.nextId + 1 } n with
          | Except.error _ => ({ status := 500, success := false }, st)
          | Except.ok st1 =>
            ({ status := 200, success := true },
             saveProject (pushUserNotif st1 prop.freelancer n.id) project1)
        else
          ({ status := 200, success := true }, saveProject st project1)

/-- Concrete store used by the C5 witness: client 7 owns open project 9
with a pending proposal (id 11) of freelancer 8. -/
def c5St : St :=
  { users := [{ id := 7, name := "Cora" }, { id := 8, name := "Fred" }]
    projects := [{ id := 9, title := "Shop", client := 7, status := "open",
                   proposals := [{ id := 11, freelancer := 8 }] }]
    nextId := 30 }

/-- `deleteTask` (src/server/controllers/task.controller.js,
lines 1427-1476): find the task (404; when the populated project document
is missing, `task.project.client` throws and the centralized handler
answers 500).  The authorization then evaluates
`task.creator.toString()` (line 1440) — but `creator` is not a path of the
task schema, whose creator reference is `createdBy`, so the read yields
undefined and `.toString()` throws a TypeError on every call that reaches
it.  The catch forwards the TypeError to the centralized handler
(src/server/utils/errorHandler.js), which carries no special case for it
and answers the default 500.  Everything after line 1440 — the 403 branch,
the project `$pull`, the parent `$pull`, the subtask `deleteMany` and
`task.remove()` — is unreachable, so no call ever mutates the store. -/
def deleteTask (st : St) (_uid taskId : Nat) : Resp × St :=
  match findTask st taskId with
  | none => ({ status := 404, success := false }, st)
  | some task =>
    match findProject st task.project with
    | none => ({ status := 500, success := false }, st)
    | some _proj =>
      -- `const isClient = task.project.client.toString() === req.user.id`
      -- evaluates; the next line reads `task.creator`, which is
      -- `creatorPathOf task = none` (undefined), so `.toString()` throws
      -- a TypeError before the requester is ever compared: every caller,
      -- authorized or not, gets the handler's default 500.
      ({ status := 500, success := false }, st)

/-- Task 2 of the C8 store: the deletion target, a subtask of task 1, with
subtasks 3 and 4. -/
def c8Task2 : TaskRec :=
  { id := 2, title := "Mid", project := 0, createdBy := 7,
    subtasks := [3, 4], parentTask := some 1 }

/-- Concrete store used for the C8 evaluation: project 0 of client 7 holds
parent task 1, task 2 (the deletion target, a subtask of 1, with subtasks 3
and 4) and its subtasks 3 and 4; every task's schema creator `createdBy`
is the client 7. -/
def c8St : St :=
  { users := [{ id := 7, name := "Cora" }]
    projects := [{ id := 0, title := "Site", client := 7, status := "in_progress",
                   tasks := [1, 2, 3, 4] }]
    tasks := [{ id := 1, title := "Root", project := 0, createdBy := 7, subtasks := [2] },
              c8Task2,
              { id := 3, title := "LeafA", project := 0, createdBy := 7, parentTask := some 2 },
              { id := 4, title := "LeafB", project := 0, createdBy := 7, parentTask := some 2 }]
    nextId := 40 }

/-- Concrete group message used by the C6 witness: a team message of
user 2 with an empty `readBy` list. -/
def c6Msg : ChatRec :=
  { id := 8, sender := 2, team := some 4, content := "standup",
    isTeamMessage := true }

/-- Concrete mark-read sequence used by the C6 witness: user 3 hits the
mark-read path three times (the third with a failing residual filter). -/
def c6Ops : List (Bool × Nat × Nat) :=
  [(true, 3, 10), (true, 3, 11), (false, 3, 12)]

/-- Model.findById on a task collection given as a list (used inside the
dependency-cycle walk, which queries `Task.findById` for every visited
node). -/
def findTaskIn (ts : List TaskRec) (i : Nat) : Option TaskRec :=
  ts.find? (fun t => t.id == i)

/-- Exceptions thrown inside `addDependency` past its guard checks, with
the status the centralized handler (src/server/utils/errorHandler.js)
answers for each: a Mongoose CastError is rewritten to 400 (lines 62-65); a
TypeError, or the error Mongoose raises casting a raw id into a subdocument
array, matches no special case and keeps the default 500 (line 39). -/
inductive WalkErr
  | castErr
  | typeErr
deriving Repr, DecidableEq

/-- `task.dependencies.includes(dependencyId)`
(src/server/controllers/task.controller.js, line 194), evaluated against
the stored array: its elements are `DepSub` subdocuments
(src/server/models/task.model.js, lines 97-107), and a subdocument never
compares equal to a bare task id, so the membership test is false for every
stored array and every id — the duplicate guard can never fire. -/
def depIncludesId (_deps : List DepSub) (_i : Nat) : Bool :=
  false

/-- `checkCircularDependency(dependencyId, taskId, visited)` of
`addDependency` (src/server/controllers/task.controller.js,
lines 199-217), evaluated against the subdocument-shaped store.  The top
call answers true when the candidate dependency IS the task
(`currentTaskId === targetTaskId`).  Otherwise it marks the node visited
and loads it: a missing document makes `currentTask.dependencies` throw a
TypeError.  It then iterates `for (const depId of
currentTask.dependencies)` — each element is an embedded `DepSub`
subdocument, so `depId.toString()` is an object dump, not a task id, and
the recursive call's `Task.findById` on that string throws a CastError at
the first element.  Hence the walk returns false exactly when the loaded
dependency task has no stored dependencies, and otherwise throws. -/
def checkCircularDependency (st : St) (startId targetId : Nat) :
    Except WalkErr Bool :=
  if startId == targetId then Except.ok true
  else
    match findTaskIn st.tasks startId with
    | none => Except.error WalkErr.typeErr
    | some t =>
      if t.dependencies.isEmpty then Except.ok false
      else Except.error WalkErr.castErr

/-- `addDependency` (src/server/controllers/task.controller.js,
lines 165-231), evaluated against the store shaped by the task schema:
404 unless both tasks exist; 403 unless the requester is the project's
client or an assigned freelancer (a missing project document makes
`task.project.client` throw: 500); 400 when the dependency belongs to
another project.  The duplicate guard `includes` (line 194) can never fire
(`depIncludesId`).  A CastError from the cycle walk is answered 400 by the
centralized handler and a TypeError 500; a walk answering true gives the
explicit 400.  When the walk answers false, the program reaches
`task.dependencies.push(dependencyId)` (line 220) — casting the raw id
into the `DepSub` subdocument array throws (the value is not an object),
the handler answers 500, and the append never happens: the store is
returned unchanged on every path. -/
def addDependency (st : St) (uid taskId dependencyId : Nat) : Resp × St :=
  match findTask st taskId, findTask st dependencyId with
  | some task, some dep =>
    match findProject st task.project with
    | none => ({ status := 500, success := false }, st)
    | some proj =>
      if !(proj.client == uid || proj.assignedFreelancers.contains uid) then
        ({ status := 403, success := false }, st)
      else if task.project != dep.project then
        ({ status := 400, success := false }, st)
      else if depIncludesId task.dependencies dependencyId then
        ({ status := 400, success := false }, st)
      else
        match checkCircularDependency st dependencyId taskId with
        | Except.error WalkErr.castErr => ({ status := 400, success := false }, st)
        | Except.error WalkErr.typeErr => ({ status := 500, success := false }, st)
        | Except.ok true => ({ status := 400, success := false }, st)
        | Except.ok false => ({ status := 500, success := false }, st)
  | _, _ => ({ status := 404, success := false }, st)

/-- Task 11 of the C10 store: no stored dependencies. -/
def c10Task11 : TaskRec :=
  { id := 11, title := "A", project := 0, createdBy := 7 }

/-- Task 12 of the C10 store: one stored dependency subdocument referencing
task 13. -/
def c10Task12 : TaskRec :=
  { id := 12, title := "B", project := 0, createdBy := 7,
    dependencies := [{ task := some 13 }] }

/-- Task 13 of the C10 store: no stored dependencies. -/
def c10Task13 : TaskRec :=
  { id := 13, title := "C", project := 0, createdBy := 7 }

/-- Concrete store used for the C10 evaluation: project 0 of client 7 with
three tasks, task 12 already depending on task 13 through a stored
subdocument. -/
def c10St : St :=
  { users := [{ id := 7, name := "Cora" }]
    projects := [{ id := 0, title := "Site", client := 7, status := "in_progress",
                   tasks := [11, 12, 13] }]
    tasks := [c10Task11, c10Task12, c10Task13]
    nextId := 50 }

/-- Concrete store used by the C4 evaluation: one client (id 7), one
assigned student (id 3), one open project (id 0) and one in-progress task
(id 1) assigned to user 3. -/
def c4St : St :=
  { users := [{ id := 7, name := "Cora" }, { id := 3, name := "Eve" }]
    projects := [{ id := 0, title := "Site", client := 7, status := "in_progress", tasks := [1] }]
    tasks := [{ id := 1, title := "Build", project := 0, createdBy := 7,
                assignedTo := [3], status := "in_progress" }]
    nextId := 2 }

end TSF

namespace TSF

/-- C2: applying the react operation twice with the same emoji does not
return the user's reaction set to empty.  The handler compares and pushes
the key `emoji`, but the schema path is `reaction`, so the stored entry
never carries the emoji and the same-emoji removal branch never fires: the
second application removes the user's entry and immediately re-adds a fresh
one.  Evaluated at the failing input: user 1 reacts with the same emoji at
times 3 and 5 on a message with no reactions; the result is one reaction
entry for user 1 (with no emoji stored), not the empty set the claim
requires. -/
theorem reactToMessage_same_emoji_twice_leaves_reaction :
    applyReact 1 "thumbsup" 5 (applyReact 1 "thumbsup" 3 []) =
      [{ user := 1, reaction := none, createdAt := 5 }] ∧
    applyReact 1 "thumbsup" 5 (applyReact 1 "thumbsup" 3 []) ≠ [] := by
  constructor
  · rfl
  · decide

/-- Removing a chat document only drops elements: whatever remains was in
the collection before. -/
theorem removeChatDoc_subset (i : Nat) :
    ∀ (cs : List ChatRec), ∀ c ∈ removeChatDoc cs i, c ∈ cs := by
  intro cs
  induction cs with
  | nil => intro c hc; simp [removeChatDoc] at hc
  | cons a l ih =>
    intro c hc
    by_cases h : (a.id == i) = true
    · rw [removeChatDoc, if_pos h] at hc
      exact List.mem_cons_of_mem _ hc
    · rw [removeChatDoc, if_neg h] at hc
      rcases List.mem_cons.mp hc with h1 | h2
      · exact h1 ▸ List.mem_cons_self _ _
      · exact List.mem_cons_of_mem _ (ih c h2)

/-- When the document is present, removing it shrinks the collection by
exactly one. -/
theorem removeChatDoc_length (i : Nat) :
    ∀ (cs : List ChatRec) (m : ChatRec), cs.find? (fun c => c.id == i) = some m →
      (removeChatDoc cs i).length + 1 = cs.length := by
  intro cs
  induction cs with
  | nil => intro m h; simp [List.find?] at h
  | cons a l ih =>
    intro m h
    by_cases hh : (a.id == i) = true
    · rw [removeChatDoc, if_pos hh]
      simp
    · have h' : l.find? (fun c => c.id == i) = some m := by
        rw [List.find?_cons_of_neg _ (by simp [hh])] at h
        exact h
      rw [removeChatDoc, if_neg hh]
      simp [ih m h']

/-- With at most one document of that id in the collection, the removed id
can no longer be found. -/
theorem removeChatDoc_none (i : Nat) :
    ∀ (cs : List ChatRec), (cs.filter (fun c => c.id == i)).length ≤ 1 →
      (removeChatDoc cs i).find? (fun c => c.id == i) = none := by
  intro cs
  induction cs with
  | nil => intro _; simp [removeChatDoc, List.find?]
  | cons a l ih =>
    intro hlen
    by_cases hh : (a.id == i) = true
    · rw [removeChatDoc, if_pos hh]
      rw [List.filter_cons_of_pos (by simpa using hh)] at hlen
      simp only [List.length_cons] at hlen
      have hnil : l.filter (fun c => c.id == i) = [] :=
        List.length_eq_zero.mp (by omega)
      apply List.find?_eq_none.mpr
      intro x hx
      have := List.filter_eq_nil_iff.mp hnil x hx
      simpa using this
    · rw [removeChatDoc, if_neg hh]
      rw [List.find?_cons_of_neg _ (by simp [hh])]
      apply ih
      rw [List.filter_cons_of_neg (by simp [hh])] at hlen
      exact hlen

/-- C9: a chat message deletion succeeds exactly for the sender.  For an
existing message, a requester other than the sender gets 403 with the store
untouched; the sender's request responds 200 and hard-removes the document
(the id is gone, the collection shrank by one, and every surviving document
was already there). -/
theorem deleteMessage_sender_only (st : St) (uid msgId : Nat) (m : ChatRec)
    (hm : findChat st msgId = some m)
    (huniq : (st.chats.filter (fun c => c.id == msgId)).length ≤ 1) :
    (m.sender ≠ uid →
      deleteMessage st uid msgId = ({ status := 403, success := false }, st)) ∧
    (m.sender = uid →
      (deleteMessage st uid msgId).1 = { status := 200, success := true } ∧
      findChat (deleteMessage st uid msgId).2 msgId = none ∧
      (deleteMessage st uid msgId).2.chats.length + 1 = st.chats.length ∧
      ∀ c ∈ (deleteMessage st uid msgId).2.chats, c ∈ st.chats) := by
  have hfind : st.chats.find? (fun c => c.id == msgId) = some m := hm
  constructor
  · intro hne
    have hbne : (m.sender != uid) = true := by simp [bne_iff_ne, hne]
    simp [deleteMessage, hm, hbne]
  · intro heq
    have hbne : (m.sender != uid) = false := by simp [bne_iff_ne, heq]
    refine ⟨by simp [deleteMessage, hm, hbne], ?_, ?_, ?_⟩
    · simp only [deleteMessage, hm, hbne]
      exact removeChatDoc_none msgId st.chats huniq
    · simp only [deleteMessage, hm, hbne]
      exact removeChatDoc_length msgId st.chats m hfind
    · simp only [deleteMessage, hm, hbne]
      exact removeChatDoc_subset msgId st.chats

/-- C9 witness: user 2 deleting their own message 5 in the concrete store,
and user 1 being refused. -/
theorem deleteMessage_sender_only_witness :
    findChat c9St 5 = some c7Msg ∧
    (c9St.chats.filter (fun c => c.id == 5)).length ≤ 1 ∧
    ((c7Msg.sender ≠ 1 →
      deleteMessage c9St 1 5 = ({ status := 403, success := false }, c9St)) ∧
    (c7Msg.sender = 1 →
      (deleteMessage c9St 1 5).1 = { status := 200, success := true } ∧
      findChat (deleteMessage c9St 1 5).2 5 = none ∧
      (deleteMessage c9St 1 5).2.chats.length + 1 = c9St.chats.length ∧
      ∀ c ∈ (deleteMessage c9St 1 5).2.chats, c ∈ c9St.chats)) :=
  ⟨by decide, by decide, deleteMessage_sender_only c9St 1 5 c7Msg (by decide) (by decide)⟩

/-- C7: read-marking a direct message is idempotent.  After the
conversation fetch marks the message, `isRead` is true; marking again via
either path changes nothing; any already-read message stays read under both
paths; and the bulk mark-read endpoint answers 200 success for every
non-empty id list, never an error. -/
theorem privateMarkRead_idempotent (viewer other : Nat) (m : ChatRec)
    (hs : m.sender = other) (hr : m.recipient = some viewer) :
    (markReadOnFetch viewer other m).isRead = true ∧
    markReadOnFetch viewer other (markReadOnFetch viewer other m) =
      markReadOnFetch viewer other m ∧
    (∀ (pc : Bool) (ids : List Nat),
      markReadBulkPrivate pc viewer ids (markReadOnFetch viewer other m) =
        markReadOnFetch viewer other m) ∧
    (∀ (m2 : ChatRec), m2.isRead = true →
      (markReadOnFetch viewer other m2).isRead = true ∧
      ∀ (pc : Bool) (ids : List Nat) (v : Nat),
        (markReadBulkPrivate pc v ids m2).isRead = true) ∧
    (∀ (ids : List Nat), ids ≠ [] →
      markMessagesAsReadResp ids = { status := 200, success := true }) := by
  have hread : ∀ (m2 : ChatRec), m2.isRead = true →
      (markReadOnFetch viewer other m2).isRead = true ∧
      ∀ (pc : Bool) (ids : List Nat) (v : Nat),
        (markReadBulkPrivate pc v ids m2).isRead = true := by
    intro m2 h2
    constructor
    · unfold markReadOnFetch
      split <;> simp [h2]
    · intro pc ids v
      unfold markReadBulkPrivate
      split <;> simp [h2]
  have hafter : (markReadOnFetch viewer other m).isRead = true := by
    unfold markReadOnFetch
    by_cases hb : m.isRead = true
    · split <;> simp [hb]
    · have hbf : m.isRead = false := by
        cases hmm : m.isRead
        · rfl
        · exact absurd hmm hb
      simp [hs, hr, hbf]
  refine ⟨hafter, ?_, ?_, hread, ?_⟩
  · unfold markReadOnFetch
    have := hafter
    split <;> simp_all [markReadOnFetch]
  · intro pc ids
    unfold markReadBulkPrivate
    split
    · next hcond =>
      exfalso
      simp only [Bool.and_eq_true, beq_iff_eq] at hcond
      rw [hafter] at hcond
      simp at hcond
    · rfl
  · intro ids hne
    cases ids with
    | nil => exact absurd rfl hne
    | cons a l => simp [markMessagesAsReadResp]

/-- C7 witness: the concrete unread direct message from user 2 to user 1,
marked through the fetch path and the bulk path. -/
theorem privateMarkRead_idempotent_witness :
    c7Msg.sender = 2 ∧ c7Msg.recipient = some 1 ∧
    ((markReadOnFetch 1 2 c7Msg).isRead = true ∧
    markReadOnFetch 1 2 (markReadOnFetch 1 2 c7Msg) = markReadOnFetch 1 2 c7Msg ∧
    (∀ (pc : Bool) (ids : List Nat),
      markReadBulkPrivate pc 1 ids (markReadOnFetch 1 2 c7Msg) =
        markReadOnFetch 1 2 c7Msg) ∧
    (∀ (m2 : ChatRec), m2.isRead = true →
      (markReadOnFetch 1 2 m2).isRead = true ∧
      ∀ (pc : Bool) (ids : List Nat) (v : Nat),
        (markReadBulkPrivate pc v ids m2).isRead = true) ∧
    (∀ (ids : List Nat), ids ≠ [] →
      markMessagesAsReadResp ids = { status := 200, success := true })) :=
  ⟨rfl, rfl, privateMarkRead_idempotent 1 2 c7Msg rfl rfl⟩

/-- One application of a group mark-read site preserves the at-most-one
`readBy` entry per user invariant: the push is guarded by the absence of an
entry of that user. -/
theorem countReadBy_markReadGroup (g : Bool) (uid now : Nat) (m : ChatRec) (u : Nat)
    (h : countReadBy m u ≤ 1) : countReadBy (markReadGroup g uid now m) u ≤ 1 := by
  unfold markReadGroup
  split
  · next hcond =>
    simp only [Bool.and_eq_true, Bool.not_eq_true'] at hcond
    obtain ⟨⟨-, -⟩, hany⟩ := hcond
    unfold countReadBy
    simp only [List.filter_append, List.length_append]
    by_cases hu : uid = u
    · have hnil : m.readBy.filter (fun e => e.user == u) = [] := by
        apply List.filter_eq_nil_iff.mpr
        intro e he
        have := List.any_eq_false.mp hany e he
        simpa [hu] using this
      simp [hnil, hu]
    · have hb : (uid == u) = false := by simp [hu]
      have : (List.filter (fun e => e.user == u)
          [({ user := uid, readAt := now } : ReadEntry)]) = [] := by
        simp [List.filter, hb]
      rw [this]
      simpa [countReadBy] using h
  · exact h

/-- C6: whatever sequence of mark-read invocations (any of the three group
mark-read paths, any users, any timestamps) is applied to a group message
whose `readBy` has at most one entry per user (in particular a freshly
created message), the result still has at most one `readBy` entry per
user. -/
theorem groupReadBy_at_most_once (ops : List (Bool × Nat × Nat)) (m : ChatRec)
    (h : ∀ u, countReadBy m u ≤ 1) :
    ∀ u, countReadBy (applyMarks ops m) u ≤ 1 := by
  induction ops generalizing m with
  | nil => simpa [applyMarks] using h
  | cons op ops ih =>
    obtain ⟨g, u0, t0⟩ := op
    exact ih _ (fun u => countReadBy_markReadGroup g u0 t0 m u (h u))

/-- C6 witness: user 3 marks the concrete team message read three times;
the `readBy` list still holds at most one entry per user. -/
theorem groupReadBy_at_most_once_witness :
    (∀ u, countReadBy c6Msg u ≤ 1) ∧
    (∀ u, countReadBy (applyMarks c6Ops c6Msg) u ≤ 1) :=
  ⟨fun u => by simp [countReadBy, c6Msg],
   groupReadBy_at_most_once c6Ops c6Msg (fun u => by simp [countReadBy, c6Msg])⟩

/-- C3 counterexample: in the concrete store, user 1 sends a private
message to user 2 and the notification write fails after the message
document is persisted; the operation does not respond with success — the
error is forwarded to the centralized handler, which answers status 500 —
even though the message is committed. -/
theorem sendPrivateMessage_notif_failure_not_success :
    (sendPrivateMessage c3St 1 "Ann" 2 "hi" none false).1.success = false ∧
    (sendPrivateMessage c3St 1 "Ann" 2 "hi" none false).1.status = 500 ∧
    ∃ c ∈ (sendPrivateMessage c3St 1 "Ann" 2 "hi" none false).2.chats,
      c.sender = 1 ∧ c.recipient = some 2 ∧ c.content = "hi" := by
  refine ⟨rfl, rfl, ?_⟩
  refine ⟨{ id := 10, sender := 1, recipient := some 2, content := "hi" }, ?_, rfl, rfl, rfl⟩
  decide

/-- C3 (amended): when the notification write fails after the message was
persisted, the failure is caught and logged but then forwarded via
`next(error)`: the response is the centralized handler's 500 error, not
success, while the message document stays committed (no rollback) and no
notification exists. -/
theorem sendPrivateMessage_notif_failure_surfaced (st : St) (senderId : Nat)
    (senderName : String) (recipient : Nat) (content : String) (mtype : Option String)
    (u : UserRec) (hu : findUser st recipient = some u) :
    (sendPrivateMessage st senderId senderName recipient content mtype false).1 =
      { status := 500, success := false } ∧
    (sendPrivateMessage st senderId senderName recipient content mtype false).2.chats =
      st.chats ++ [{ id := st.nextId, sender := senderId, recipient := some recipient,
                     content := content, ctype := mtype.getD "text" }] ∧
    (sendPrivateMessage st senderId senderName recipient content mtype false).2.notifications =
      st.notifications := by
  simp [sendPrivateMessage, hu]

/-- C3 witness: the amended statement at the concrete store. -/
theorem sendPrivateMessage_notif_failure_surfaced_witness :
    findUser c3St 2 = some { id := 2, name := "Bob" } ∧
    ((sendPrivateMessage c3St 1 "Ann" 2 "hi" none false).1 =
      { status := 500, success := false } ∧
    (sendPrivateMessage c3St 1 "Ann" 2 "hi" none false).2.chats =
      c3St.chats ++ [{ id := c3St.nextId, sender := 1, recipient := some 2,
                       content := "hi", ctype := (none : Option String).getD "text" }] ∧
    (sendPrivateMessage c3St 1 "Ann" 2 "hi" none false).2.notifications =
      c3St.notifications) :=
  ⟨by decide,
   sendPrivateMessage_notif_failure_surfaced c3St 1 "Ann" 2 "hi" none
     { id := 2, name := "Bob" } (by decide)⟩

/-- Looking up any user after a notification push: the original record is
found, its notification list survives into the new record, and the pushed
id is present when the looked-up id is the push target. -/
theorem findUser_after_push (uid nid i : Nat) :
    ∀ (users : List UserRec) (u : UserRec),
      (users.map (fun w => if w.id == uid then
          { w with notifications := w.notifications ++ [nid] } else w)).find?
        (fun w => w.id == i) = some u →
      ∃ u0, users.find? (fun w => w.id == i) = some u0 ∧
        (∀ x ∈ u0.notifications, x ∈ u.notifications) ∧
        (i = uid → nid ∈ u.notifications) := by
  intro users
  induction users with
  | nil => intro u hu; simp at hu
  | cons a l ih =>
    intro u hu
    by_cases hb : (a.id == uid) = true
    · by_cases ha : (a.id == i) = true
      · rw [List.map_cons, if_pos hb,
          List.find?_cons_of_pos _ (by simpa using ha)] at hu
        refine ⟨a, List.find?_cons_of_pos _ ha, ?_, ?_⟩
        · intro x hx
          cases hu
          simp [List.mem_append, hx]
        · intro _
          cases hu
          simp
      · rw [List.map_cons, if_pos hb,
          List.find?_cons_of_neg _ (by simpa using ha)] at hu
        obtain ⟨u0, hfind, hsub, hpush⟩ := ih u hu
        exact ⟨u0, by rw [List.find?_cons_of_neg _ (by simpa using ha)]; exact hfind,
          hsub, hpush⟩
    · by_cases ha : (a.id == i) = true
      · rw [List.map_cons, if_neg hb,
          List.find?_cons_of_pos _ (by simpa using ha)] at hu
        refine ⟨a, List.find?_cons_of_pos _ ha, ?_, ?_⟩
        · intro x hx
          cases hu
          exact hx
        · intro hiu
          exfalso
          apply hb
          rw [← hiu]
          exact ha
      · rw [List.map_cons, if_neg hb,
          List.find?_cons_of_neg _ (by simpa using ha)] at hu
        obtain ⟨u0, hfind, hsub, hpush⟩ := ih u hu
        exact ⟨u0, by rw [List.find?_cons_of_neg _ (by simpa using ha)]; exact hfind,
          hsub, hpush⟩

/-- The push target, whenever found after the push, holds the pushed
notification id. -/
theorem pushUserNotif_self (st : St) (uid nid : Nat) :
    ∀ u, findUser (pushUserNotif st uid nid) uid = some u → nid ∈ u.notifications := by
  intro u hu
  obtain ⟨u0, -, -, hpush⟩ := findUser_after_push uid nid uid st.users u hu
  exact hpush rfl

/-- A notification push never removes an id from any user's notification
list. -/
theorem pushUserNotif_mono (st : St) (uid nid i x : Nat)
    (h : ∀ u, findUser st i = some u → x ∈ u.notifications) :
    ∀ u, findUser (pushUserNotif st uid nid) i = some u → x ∈ u.notifications := by
  intro u hu
  obtain ⟨u0, hfind, hsub, -⟩ := findUser_after_push uid nid i st.users u hu
  exact hsub x (h u0 hfind)

/-- Behaviour of the `sendTeamMessage` member loop: it completes (the
notification type `message` is in the schema enum), appends one
notification per non-sender member — in member order, addressed to that
member — and leaves each created notification's id in its recipient's
notification list; and it never removes an id from any user's list. -/
theorem teamNotifLoop_spec (senderId : Nat) (senderName teamName : String)
    (teamId msgId : Nat) :
    ∀ (ms : List TMember) (st : St), ∃ (st2 : St) (created : List NotifRec),
      teamNotifLoop senderId senderName teamName teamId msgId ms st = Except.ok st2 ∧
      st2.notifications = st.notifications ++ created ∧
      created.map (fun n => n.recipient) =
        (ms.map (fun mem => mem.user)).filter (fun v => !(v == senderId)) ∧
      (∀ n ∈ created, ∀ u, findUser st2 n.recipient = some u → n.id ∈ u.notifications) ∧
      (∀ (i x : Nat), (∀ u, findUser st i = some u → x ∈ u.notifications) →
        ∀ u, findUser st2 i = some u → x ∈ u.notifications) := by
  intro ms
  induction ms with
  | nil =>
    intro st
    exact ⟨st, [], rfl, by simp, by simp, by simp, fun i x h => h⟩
  | cons mem ms ih =>
    intro st
    by_cases hmem : (mem.user == senderId) = true
    · obtain ⟨st2, created, h1, h2, h3, h4, h5⟩ := ih st
      refine ⟨st2, created, ?_, h2, ?_, h4, h5⟩
      · simp only [teamNotifLoop, hmem, if_true]
        exact h1
      · simp only [List.map_cons, List.filter_cons, hmem, Bool.not_true, Bool.false_eq_true,
          if_false]
        exact h3
    · have hsave : saveNotificationE { st with nextId := st.nextId + 1 }
          (mkTeamMsgNotif st.nextId mem.user senderId senderName teamName teamId msgId) =
          Except.ok
            { st with
              nextId := st.nextId + 1
              notifications := st.notifications ++
                [mkTeamMsgNotif st.nextId mem.user senderId senderName teamName teamId msgId] } := by
        have hval : validNotifType "message" = true := by decide
        simp [saveNotificationE, mkTeamMsgNotif, hval]
      obtain ⟨st2, created, h1, h2, h3, h4, h5⟩ :=
        ih (pushUserNotif
          { st with
            nextId := st.nextId + 1
            notifications := st.notifications ++
              [mkTeamMsgNotif st.nextId mem.user senderId senderName teamName teamId msgId] }
          mem.user st.nextId)
      refine ⟨st2,
        mkTeamMsgNotif st.nextId mem.user senderId senderName teamName teamId msgId :: created,
        ?_, ?_, ?_, ?_, ?_⟩
      · simp only [teamNotifLoop, hmem, if_false]
        rw [hsave]
        exact h1
      · rw [h2]
        have hpn : (pushUserNotif
            { st with
              nextId := st.nextId + 1
              notifications := st.notifications ++
                [mkTeamMsgNotif st.nextId mem.user senderId senderName teamName teamId msgId] }
            mem.user st.nextId).notifications = st.notifications ++
              [mkTeamMsgNotif st.nextId mem.user senderId senderName teamName teamId msgId] := rfl
        rw [hpn, List.append_assoc]
        rfl
      · simp only [List.map_cons, List.filter_cons, hmem, Bool.not_false, if_true]
        rw [h3]
        rfl
      · intro n' hn' u hu
        rcases List.mem_cons.mp hn' with rfl | hmemc
        · exact h5 mem.user st.nextId (fun u' hu' => pushUserNotif_self _ _ _ u' hu') u hu
        · exact h4 n' hmemc u hu
      · intro i x hpre
        exact h5 i x (pushUserNotif_mono _ _ _ _ _ (fun u hu => hpre u hu))

/-- C1: a team-message send by a member of an N-member team (sender counted
once among them) responds 201 and appends exactly N-1 notification
documents: their recipients are, in order, the non-sender members, none is
addressed to the sender, and each created notification's id sits in its
recipient's notification list. -/
theorem sendTeamMessage_fanout (st : St) (senderId : Nat) (senderName : String)
    (teamId : Nat) (content : String) (mtype : Option String) (team : TeamRec)
    (hteam : findTeam st teamId = some team)
    (hsender : (team.members.map (fun mem => mem.user)).count senderId = 1) :
    (sendTeamMessage st senderId senderName teamId content mtype).1 =
      { status := 201, success := true } ∧
    ∃ created : List NotifRec,
      (sendTeamMessage st senderId senderName teamId content mtype).2.notifications =
        st.notifications ++ created ∧
      created.length + 1 = team.members.length ∧
      created.map (fun n => n.recipient) =
        (team.members.map (fun mem => mem.user)).filter (fun v => !(v == senderId)) ∧
      (∀ n ∈ created, n.recipient ≠ senderId) ∧
      (∀ n ∈ created, ∀ u,
        findUser (sendTeamMessage st senderId senderName teamId content mtype).2
          n.recipient = some u → n.id ∈ u.notifications) := by
  have hmem : team.members.any (fun mem => mem.user == senderId) = true := by
    have hpos : 0 < (team.members.map (fun mem => mem.user)).count senderId := by omega
    have hin : senderId ∈ team.members.map (fun mem => mem.user) :=
      List.count_pos_iff.mp hpos
    obtain ⟨mem, hmem0, heq⟩ := List.mem_map.mp hin
    exact List.any_eq_true.mpr ⟨mem, hmem0, by simp [heq]⟩
  obtain ⟨st2, created, h1, h2, h3, h4, h5⟩ :=
    teamNotifLoop_spec senderId senderName team.name teamId st.nextId team.members
      { st with
        chats := st.chats ++
          [{ id := st.nextId, sender := senderId, team := some teamId,
             content := content, ctype := mtype.getD "text", isTeamMessage := true }],
        nextId := st.nextId + 1 }
  have hrun : sendTeamMessage st senderId senderName teamId content mtype =
      ({ status := 201, success := true }, st2) := by
    simp only [sendTeamMessage, hteam, hmem, Bool.not_true, Bool.false_eq_true, if_false]
    rw [h1]
  rw [hrun]
  refine ⟨rfl, created, h2, ?_, h3, ?_, ?_⟩
  · have hlen : created.length =
        ((team.members.map (fun mem => mem.user)).filter (fun v => !(v == senderId))).length := by
      rw [← h3, List.length_map]
    have hsplit := List.length_eq_countP_add_countP
      (l := team.members.map (fun mem => mem.user)) (p := fun v => v == senderId)
    have hc1 : (team.members.map (fun mem => mem.user)).countP (fun v => v == senderId) = 1 := by
      have : (team.members.map (fun mem => mem.user)).count senderId =
          (team.members.map (fun mem => mem.user)).countP (fun v => v == senderId) := rfl
      omega
    have hc2 : ((team.members.map (fun mem => mem.user)).filter
        (fun v => !(v == senderId))).length =
        (team.members.map (fun mem => mem.user)).countP (fun v => !(v == senderId)) :=
      (List.countP_eq_length_filter _ _).symm
    have hsplit2 : (team.members.map (fun mem => mem.user)).length =
        (team.members.map (fun mem => mem.user)).countP (fun v => v == senderId) +
        (team.members.map (fun mem => mem.user)).countP (fun v => !(v == senderId)) := by
      simpa using hsplit
    have hml : (team.members.map (fun mem => mem.user)).length = team.members.length :=
      List.length_map _ _
    omega
  · intro n hn
    have hmm : n.recipient ∈ created.map (fun n => n.recipient) :=
      List.mem_map_of_mem _ hn
    rw [h3] at hmm
    have := (List.mem_filter.mp hmm).2
    simpa using this
  · intro n hn u hu
    exact h4 n hn u hu

/-- C1 witness: user 1 sends to the three-member team 4 of the concrete
store. -/
theorem sendTeamMessage_fanout_witness :
    findTeam c1St 4 = some
      { id := 4, name := "Alpha",
        members := [{ user := 1, role := "leader" }, { user := 2 }, { user := 3 }] } ∧
    (([{ user := 1, role := "leader" }, { user := 2 },
        { user := 3 }] : List TMember).map (fun mem => mem.user)).count 1 = 1 ∧
    ((sendTeamMessage c1St 1 "Ann" 4 "hi team" none).1 =
      { status := 201, success := true } ∧
    ∃ created : List NotifRec,
      (sendTeamMessage c1St 1 "Ann" 4 "hi team" none).2.notifications =
        c1St.notifications ++ created ∧
      created.length + 1 =
        ([{ user := 1, role := "leader" }, { user := 2 },
          { user := 3 }] : List TMember).length ∧
      created.map (fun n => n.recipient) =
        (([{ user := 1, role := "leader" }, { user := 2 },
           { user := 3 }] : List TMember).map (fun mem => mem.user)).filter
          (fun v => !(v == 1)) ∧
      (∀ n ∈ created, n.recipient ≠ 1) ∧
      (∀ n ∈ created, ∀ u,
        findUser (sendTeamMessage c1St 1 "Ann" 4 "hi team" none).2
          n.recipient = some u → n.id ∈ u.notifications)) :=
  ⟨by decide, by decide,
   sendTeamMessage_fanout c1St 1 "Ann" 4 "hi team" none
     { id := 4, name := "Alpha",
       members := [{ user := 1, role := "leader" }, { user := 2 }, { user := 3 }] }
     (by decide) (by decide)⟩

/-- Updating a record in place (an id-preserving map) moves `find?` results
through the update function. -/
theorem find?_map_keyed {α : Type} (f : α → α) (p : α → Bool)
    (hp : ∀ x, p (f x) = p x) :
    ∀ (l : List α) (q : α), l.find? p = some q → (l.map f).find? p = some (f q) := by
  intro l
  induction l with
  | nil => intro q hq; simp at hq
  | cons a l ih =>
    intro q hq
    by_cases ha : p a = true
    · rw [List.find?_cons_of_pos _ ha] at hq
      cases hq
      rw [List.map_cons, List.find?_cons_of_pos _ (by rw [hp]; exact ha)]
    · rw [List.find?_cons_of_neg _ ha] at hq
      rw [List.map_cons, List.find?_cons_of_neg _ (by rw [hp]; exact ha)]
      exact ih q hq

/-- C5: accepting a pending proposal on an open project as its client
responds 200; afterwards the project's status is `in_progress`, the
proposing freelancer is among `assignedFreelancers`, and a notification of
type `proposal` addressed to that freelancer exists whose content contains
the word accepted. -/
theorem updateProposalStatus_accept (st : St) (uid projectId proposalId now : Nat)
    (project : ProjectRec) (prop : ProposalRec)
    (hp : findProject st projectId = some project)
    (hc : project.client = uid)
    (hprop : project.proposals.find? (fun p => p.id == proposalId) = some prop)
    (hpend : prop.pstatus = "pending")
    (hopen : project.status = "open") :
    (updateProposalStatus st uid projectId proposalId "accepted" now).1 =
      { status := 200, success := true } ∧
    (∃ p2, findProject
        (updateProposalStatus st uid projectId proposalId "accepted" now).2 projectId =
          some p2 ∧
      p2.status = "in_progress" ∧ prop.freelancer ∈ p2.assignedFreelancers) ∧
    ∃ n ∈ (updateProposalStatus st uid projectId proposalId "accepted" now).2.notifications,
      n.recipient = prop.freelancer ∧ n.ntype = "proposal" ∧ strHasSub "accepted" n.content := by
  have hbne : (project.client != uid) = false := by simp [hc]
  have hval : validNotifType "proposal" = true := by decide
  set n0 : NotifRec :=
    { id := st.nextId
      recipient := prop.freelancer
      ntype := "proposal"
      title := "Proposal Accepted"
      content := "Your proposal for the project \"" ++ project.title ++
        "\" has been accepted!"
      link := "/projects/" ++ toString project.id
      project := some project.id
      createdBy := uid } with hn0def
  set p2 : ProjectRec :=
    { project with
      proposals := setProposalStatus project.proposals proposalId "accepted"
      status := "in_progress"
      startDate := some now
      assignedFreelancers := project.assignedFreelancers ++ [prop.freelancer] } with hp2def
  have hrun : updateProposalStatus st uid projectId proposalId "accepted" now =
      ({ status := 200, success := true },
       saveProject
         (pushUserNotif
           { st with
             nextId := st.nextId + 1
             notifications := st.notifications ++ [n0] }
           prop.freelancer st.nextId)
         p2) := by
    simp [updateProposalStatus, hp, hprop, hbne, saveNotificationE, hval, hn0def, hp2def]
  rw [hrun]
  have hp2id : p2.id = project.id := by rw [hp2def]
  have hn0rec : n0.recipient = prop.freelancer := by rw [hn0def]
  refine ⟨rfl, ?_, ?_⟩
  · have hp' : st.projects.find? (fun p => p.id == projectId) = some project := hp
    have hkey : ∀ x : ProjectRec,
        ((if x.id == p2.id then p2 else x).id == projectId) = (x.id == projectId) := by
      intro x
      by_cases hx : (x.id == p2.id) = true
      · have hxe : x.id = p2.id := by simpa using hx
        rw [if_pos hx, hxe]
      · rw [if_neg hx]
    have hfound := find?_map_keyed _ _ hkey st.projects project hp'
    have hfp : (if project.id == p2.id then p2 else project) = p2 := by
      have : (project.id == p2.id) = true := by simp [hp2id]
      simp [this]
    refine ⟨p2, ?_, ?_, ?_⟩
    · show (st.projects.map (fun x => if x.id == p2.id then p2 else x)).find?
        (fun p => p.id == projectId) = some p2
      rw [hfound, hfp]
    · rw [hp2def]
    · rw [hp2def]
      exact List.mem_append_right _ (List.mem_singleton_self _)
  · refine ⟨n0, ?_, hn0rec, ?_, ?_⟩
    · show n0 ∈ st.notifications ++ [n0]
      exact List.mem_append_right _ (List.mem_singleton_self _)
    · rw [hn0def]
    · rw [hn0def]
      refine ⟨("Your proposal for the project \"").data ++ project.title.data ++
        ("\" has been ").data, ("!").data, ?_⟩
      have hB : ("\" has been accepted!").data =
          ("\" has been ").data ++ ("accepted").data ++ ("!").data := by decide
      show ("Your proposal for the project \"" ++ project.title ++
        "\" has been accepted!").data = _
      rw [String.data_append, String.data_append, hB]
      simp [List.append_assoc]


/-- C5 witness: client 7 accepts proposal 11 of freelancer 8 on the open
project 9 of the concrete store. -/
theorem updateProposalStatus_accept_witness :
    findProject c5St 9 = some
      { id := 9, title := "Shop", client := 7, status := "open",
        proposals := [{ id := 11, freelancer := 8 }] } ∧
    ((updateProposalStatus c5St 7 9 11 "accepted" 100).1 =
      { status := 200, success := true } ∧
    (∃ p2, findProject (updateProposalStatus c5St 7 9 11 "accepted" 100).2 9 = some p2 ∧
      p2.status = "in_progress" ∧
      (8 : Nat) ∈ p2.assignedFreelancers) ∧
    ∃ n ∈ (updateProposalStatus c5St 7 9 11 "accepted" 100).2.notifications,
      n.recipient = 8 ∧ n.ntype = "proposal" ∧ strHasSub "accepted" n.content) :=
  ⟨by decide,
   updateProposalStatus_accept c5St 7 9 11 100
     { id := 9, title := "Shop", client := 7, status := "open",
       proposals := [{ id := 11, freelancer := 8 }] }
     { id := 11, freelancer := 8 }
     (by decide) rfl (by decide) rfl rfl⟩

/-- C8: the claim describes the delete cascade the handler was written
for, but the code never reaches it: the authorization reads the non-schema
path `creator` (task.controller.js, line 1440; the task schema's creator
reference is `createdBy`), the undefined read's `.toString()` throws a
TypeError, and the centralized handler answers 500 on every call that
passes the 404 and project checks.  Evaluated at the failing input — the
project's client (user 7) deletes existing task 2, whose subtasks are 3
and 4 — the operation answers 500, the store is returned unchanged, and
the task, both subtasks, the project's task list and the parent's subtask
list all survive: no cascade ever happens. -/
theorem deleteTask_creator_path_throws :
    creatorPathOf c8Task2 = none ∧
    deleteTask c8St 7 2 = ({ status := 500, success := false }, c8St) ∧
    findTask (deleteTask c8St 7 2).2 2 = some c8Task2 ∧
    (findTask (deleteTask c8St 7 2).2 3).isSome = true ∧
    (findTask (deleteTask c8St 7 2).2 4).isSome = true ∧
    (findProject (deleteTask c8St 7 2).2 0).map (fun p => p.tasks) =
      some [1, 2, 3, 4] := by
  refine ⟨rfl, ?_, ?_, ?_, ?_, ?_⟩ <;> decide

/-- C10: against the store shaped by the task schema — `dependencies` as
`{task, type}` subdocuments — the behaviours the claim describes are
unreachable.  In the concrete store (client 7, project 0, task 12 already
depending on task 13 through a stored subdocument): the duplicate guard
`includes` does not fire even for the effectively-already-present
dependency 13 of task 12, and the request answers 500 from the throwing
push instead of the claimed duplicate 400; adding 12 under 11 answers 400
because the cycle walk CastErrors on 12's stored subdocument, although no
cycle exists; and adding 13 (no stored dependencies) under 11 — the plain
legitimate append of the claim — answers 500 from the push and appends
nothing: on every path the store is unchanged and no append occurs. -/
theorem addDependency_store_shape_fails :
    depIncludesId c10Task12.dependencies 13 = false ∧
    addDependency c10St 7 12 13 = ({ status := 500, success := false }, c10St) ∧
    checkCircularDependency c10St 12 11 = Except.error WalkErr.castErr ∧
    addDependency c10St 7 11 12 = ({ status := 400, success := false }, c10St) ∧
    addDependency c10St 7 11 13 = ({ status := 500, success := false }, c10St) := by
  refine ⟨rfl, ?_, rfl, ?_, ?_⟩ <;> decide

/-- C4: not every operation passes a Notification `type` from the schema
enum.  `updateProgress` passes `task_completed` and `inviteToTeam` passes
`invitation`; both fail the enum, so the save throws a Mongoose
ValidationError, which the centralized handler maps to status 400
(errorHandler.js, lines 48-52).  At the failing input — user 3 marking
task 1 completed — the operation answers 400 with no notification created
and the store unchanged (the task write is never reached). -/
theorem updateProgress_notification_type_rejected :
    validNotifType updateProgressNotifType = false ∧
    validNotifType inviteToTeamNotifType = false ∧
    updateProgress c4St 3 "Eve" 1 none (some "completed") =
      ({ status := 400, success := false }, c4St) ∧
    c4St.notifications = [] := by
  refine ⟨rfl, rfl, ?_, rfl⟩
  decide

end TSF
